import Mathlib

/-!
Verification of the UI bridge of yourcontrols (`src/yourcontrols/src/ui/`).

The development shallowly embeds the three source files
`ui/mod.rs`, `ui/egui_backend.rs` and `ui/webview.rs`:

* JSON documents are modelled by an inductive `Json` AST; the string-level
  parser of the external `serde_json` crate is treated as a parameter
  (`parse : String -> Option Json`) where the source calls
  `serde_json::from_str`, and JSON numbers are modelled as exact rationals
  (every concrete numeric literal appearing in the claims, such as `12.5`,
  is exactly representable in the source's `f32`/`f64`, so no rounding is
  lost on the inputs considered).
* The typed protocol (`ConnectionMethod`, `AppMessage`) and the serde
  derive semantics of its attributes (`tag = "type"`,
  `rename_all = "camelCase"`, which renames enum *variants* only) are
  embedded as explicit `toJson` / `fromJson` functions.
* The egui backend's render state (`YourControlsApp`) becomes the
  structure `RenderState`, and `handle_event` a pure state transformer.
* Channels are modelled as FIFO queues with a disconnection flag, and
  `invoke` of the webview backend as the list of scripts it schedules.
-/

namespace YC

/-- A JSON document, mirroring `serde_json::Value`; numbers are modelled as
exact rationals (see the module comment). Object fields are kept in
insertion order. -/
inductive Json where
  | null
  | bool (b : Bool)
  | num (q : Rat)
  | str (s : String)
  | arr (elements : List Json)
  | obj (fields : List (String × Json))

/-- Indexing `value["key"]` on a `serde_json::Value`: the first field with a
matching key, `Null` when the key is absent or the value is not an object. -/
def Json.get (j : Json) (key : String) : Json :=
  match j with
  | Json.obj fields =>
    match fields.find? (fun kv => kv.1 == key) with
    | some kv => kv.2
    | none => Json.null
  | _ => Json.null

/-- The keys of a JSON object (in order); `[]` on any other value. -/
def Json.keys : Json → List String
  | Json.obj fields => fields.map Prod.fst
  | _ => []

/-- Models `serde_json::Value::as_u64`: an integral number in `u64` range. -/
def Json.asU64 : Json → Option Nat
  | Json.num q =>
    if q.den = 1 ∧ 0 ≤ q.num ∧ q.num < 18446744073709551616 then
      some q.num.toNat
    else none
  | _ => none

/-- Models `serde_json::Value::as_f64`: any JSON number (as an exact
rational; the claims only evaluate it on values exactly representable in
`f64`). -/
def Json.asF64 : Json → Option Rat
  | Json.num q => some q
  | _ => none

/-- Models `serde_json::Value::as_str`. -/
def Json.asStr : Json → Option String
  | Json.str s => some s
  | _ => none

/-- Models `serde_json::Value::as_bool`. -/
def Json.asBool : Json → Option Bool
  | Json.bool b => some b
  | _ => none

/-- The `ConnectionMethod` enum of `ui/mod.rs` (`Direct`, `Relay`,
`CloudServer`), declared with `#[serde(rename_all = "camelCase")]`. -/
inductive ConnectionMethod where
  | Direct
  | Relay
  | CloudServer
  deriving DecidableEq

/-- The wire token of each `ConnectionMethod` variant under serde's
`rename_all = "camelCase"` renaming of variant names. -/
def ConnectionMethod.encode : ConnectionMethod → String
  | ConnectionMethod.Direct => "direct"
  | ConnectionMethod.Relay => "relay"
  | ConnectionMethod.CloudServer => "cloudServer"

/-- Serde's deserialization of `ConnectionMethod` from a token string:
exact, case-sensitive matching of the three renamed variant names. -/
def ConnectionMethod.decode (s : String) : Option ConnectionMethod :=
  if s = "direct" then some ConnectionMethod.Direct
  else if s = "relay" then some ConnectionMethod.Relay
  else if s = "cloudServer" then some ConnectionMethod.CloudServer
  else none

/-- JSON form of a `ConnectionMethod`: a plain string token. -/
def ConnectionMethod.toJson (m : ConnectionMethod) : Json :=
  Json.str m.encode

/-- Deserialization of a `ConnectionMethod` from JSON. -/
def ConnectionMethod.fromJson (j : Json) : Option ConnectionMethod :=
  match j with
  | Json.str s => ConnectionMethod.decode s
  | _ => none

/-- A textual IP address (`std::net::IpAddr`). The standard library's
parser is external to this repository; `parseIpAddr` below models its
IPv4 dotted-quad grammar (the IPv6 textual forms it also accepts are not
modelled — no claim evaluates an IP-bearing message). -/
structure IpAddr where
  text : String

/-- One octet of a dotted-quad address: decimal digits, value at most 255,
no leading zero (as enforced by Rust's `std` parser). -/
def validOctet (s : String) : Bool :=
  let cs := s.toList
  (cs.length ≥ 1) && (cs.length ≤ 3) && cs.all Char.isDigit
    && (cs.length = 1 || cs.headD '0' ≠ '0')
    && (s.toNat? |>.getD 256) ≤ 255

/-- Models `IpAddr::from_str` on IPv4 dotted-quad text (see `IpAddr`). -/
def parseIpAddr (s : String) : Option IpAddr :=
  match s.splitOn "." with
  | [a, b, c, d] =>
    if validOctet a && validOctet b && validOctet c && validOctet d then
      some ⟨s⟩
    else none
  | _ => none

/-- Serde deserialization of `IpAddr`: a JSON string in address syntax. -/
def IpAddr.fromJson (j : Json) : Option IpAddr :=
  match j with
  | Json.str s => parseIpAddr s
  | _ => none

/-- JSON form of an `IpAddr`: its textual form as a string. -/
def IpAddr.toJson (ip : IpAddr) : Json :=
  Json.str ip.text

/-- Modelled from the spec: `crate::simconfig::Config` is not among the
shown sources; the spec (§6) calls it "a generic structured configuration
blob passed opaquely as JSON text", so it is modelled as an opaque JSON
document whose (de)serialization is the identity on that document. -/
structure Config where
  blob : Json

/-- Serde deserialization of the opaque `Config` blob (see `Config`). -/
def Config.fromJson (j : Json) : Option Config :=
  some ⟨j⟩

/-- Serde serialization of the opaque `Config` blob (see `Config`). -/
def Config.toJson (c : Config) : Json :=
  c.blob

/-- The `AppMessage` enum of `ui/mod.rs` (the spec's InboundMessage),
declared with `#[serde(tag = "type", rename_all = "camelCase")]`.
Rust's `u16` port fields are modelled as `Nat` (range-checked on decode);
field names are kept exactly as declared in the source. -/
inductive AppMessage where
  | StartServer (username : String) (is_ipv6 : Bool) (use_upnp : Bool)
      (port : Nat) (method : ConnectionMethod)
  | Connect (username : String) (session_id : Option String) (isipv6 : Bool)
      (ip : Option IpAddr) (hostname : Option String) (port : Option Nat)
      (method : ConnectionMethod)
  | TransferControl (target : String)
  | SetObserver (target : String) (is_observer : Bool)
  | LoadAircraft (config_file_name : String)
  | Disconnect
  | Startup
  | RunUpdater
  | ForceTakeControl
  | UpdateConfig (new_config : Config)
  | GoObserver

/-- The wire tag of each `AppMessage` variant: serde's
`rename_all = "camelCase"` on an enum renames the *variant names*
(`StartServer` ↦ `startServer`, ...). -/
def AppMessage.typeTag : AppMessage → String
  | AppMessage.StartServer _ _ _ _ _ => "startServer"
  | AppMessage.Connect _ _ _ _ _ _ _ => "connect"
  | AppMessage.TransferControl _ => "transferControl"
  | AppMessage.SetObserver _ _ => "setObserver"
  | AppMessage.LoadAircraft _ => "loadAircraft"
  | AppMessage.Disconnect => "disconnect"
  | AppMessage.Startup => "startup"
  | AppMessage.RunUpdater => "runUpdater"
  | AppMessage.ForceTakeControl => "forceTakeControl"
  | AppMessage.UpdateConfig _ => "updateConfig"
  | AppMessage.GoObserver => "goObserver"

/-- The payload field names of each `AppMessage` variant. Serde's
container-level `rename_all` does not touch struct-variant *field* names,
so these are the Rust identifiers exactly as declared. -/
def AppMessage.fieldNames : AppMessage → List String
  | AppMessage.StartServer _ _ _ _ _ =>
    ["username", "is_ipv6", "use_upnp", "port", "method"]
  | AppMessage.Connect _ _ _ _ _ _ _ =>
    ["username", "session_id", "isipv6", "ip", "hostname", "port", "method"]
  | AppMessage.TransferControl _ => ["target"]
  | AppMessage.SetObserver _ _ => ["target", "is_observer"]
  | AppMessage.LoadAircraft _ => ["config_file_name"]
  | AppMessage.Disconnect => []
  | AppMessage.Startup => []
  | AppMessage.RunUpdater => []
  | AppMessage.ForceTakeControl => []
  | AppMessage.UpdateConfig _ => ["new_config"]
  | AppMessage.GoObserver => []

/-- Serialization of an optional value: `None` becomes JSON `null`. -/
def optToJson (f : α → Json) : Option α → Json
  | some x => f x
  | none => Json.null

/-- Serde serialization of `AppMessage` under
`#[serde(tag = "type", rename_all = "camelCase")]` (internal tagging): an
object whose first field is the `type` tag, followed by the variant's
fields in declaration order, under their declared (un-renamed) names. -/
def AppMessage.toJson : AppMessage → Json
  | AppMessage.StartServer username is_ipv6 use_upnp port method =>
    Json.obj [("type", Json.str "startServer"),
      ("username", Json.str username),
      ("is_ipv6", Json.bool is_ipv6),
      ("use_upnp", Json.bool use_upnp),
      ("port", Json.num (port : Rat)),
      ("method", method.toJson)]
  | AppMessage.Connect username session_id isipv6 ip hostname port method =>
    Json.obj [("type", Json.str "connect"),
      ("username", Json.str username),
      ("session_id", optToJson Json.str session_id),
      ("isipv6", Json.bool isipv6),
      ("ip", optToJson IpAddr.toJson ip),
      ("hostname", optToJson Json.str hostname),
      ("port", optToJson (fun p => Json.num (p : Rat)) port),
      ("method", method.toJson)]
  | AppMessage.TransferControl target =>
    Json.obj [("type", Json.str "transferControl"),
      ("target", Json.str target)]
  | AppMessage.SetObserver target is_observer =>
    Json.obj [("type", Json.str "setObserver"),
      ("target", Json.str target),
      ("is_observer", Json.bool is_observer)]
  | AppMessage.LoadAircraft config_file_name =>
    Json.obj [("type", Json.str "loadAircraft"),
      ("config_file_name", Json.str config_file_name)]
  | AppMessage.Disconnect => Json.obj [("type", Json.str "disconnect")]
  | AppMessage.Startup => Json.obj [("type", Json.str "startup")]
  | AppMessage.RunUpdater => Json.obj [("type", Json.str "runUpdater")]
  | AppMessage.ForceTakeControl =>
    Json.obj [("type", Json.str "forceTakeControl")]
  | AppMessage.UpdateConfig new_config =>
    Json.obj [("type", Json.str "updateConfig"),
      ("new_config", new_config.toJson)]
  | AppMessage.GoObserver => Json.obj [("type", Json.str "goObserver")]

/-- Serde deserialization of a `bool` field (strict: only JSON booleans). -/
def decodeBool (j : Json) : Option Bool :=
  j.asBool

/-- Serde deserialization of a `String` field (strict: only JSON strings). -/
def decodeStr (j : Json) : Option String :=
  j.asStr

/-- Serde deserialization of a `u16` field: an integral number in
`[0, 65535]`. -/
def decodeU16 (j : Json) : Option Nat :=
  match j with
  | Json.num q =>
    if q.den = 1 ∧ 0 ≤ q.num ∧ q.num < 65536 then some q.num.toNat else none
  | _ => none

/-- Serde deserialization of an `Option<T>` field: serde treats a missing
field of `Option` type as `None`, and `Json.get` yields `null` for a
missing key, so `null` maps to `some none` and any other value must decode
as `T`. -/
def decodeOpt (f : Json → Option α) (j : Json) : Option (Option α) :=
  match j with
  | Json.null => some none
  | _ => (f j).map some

/-- Serde deserialization of `AppMessage` under internal tagging: the
`type` field selects the variant (unknown or missing tag fails); each
non-`Option` field must be present with the expected type; `Option`
fields default to `None` when absent or `null` (serde's behavior);
unknown extra fields are ignored. -/
def AppMessage.fromJson (j : Json) : Option AppMessage :=
  match j.get "type" with
  | Json.str tag =>
    if tag = "startServer" then
      match decodeStr (j.get "username"), decodeBool (j.get "is_ipv6"),
          decodeBool (j.get "use_upnp"), decodeU16 (j.get "port"),
          ConnectionMethod.fromJson (j.get "method") with
      | some u, some i, some up, some p, some m =>
        some (AppMessage.StartServer u i up p m)
      | _, _, _, _, _ => none
    else if tag = "connect" then
      match decodeStr (j.get "username"),
          decodeOpt decodeStr (j.get "session_id"),
          decodeBool (j.get "isipv6"),
          decodeOpt IpAddr.fromJson (j.get "ip"),
          decodeOpt decodeStr (j.get "hostname"),
          decodeOpt decodeU16 (j.get "port"),
          ConnectionMethod.fromJson (j.get "method") with
      | some u, some sid, some i, some ip, some hn, some p, some m =>
        some (AppMessage.Connect u sid i ip hn p m)
      | _, _, _, _, _, _, _ => none
    else if tag = "transferControl" then
      match decodeStr (j.get "target") with
      | some t => some (AppMessage.TransferControl t)
      | none => none
    else if tag = "setObserver" then
      match decodeStr (j.get "target"), decodeBool (j.get "is_observer") with
      | some t, some o => some (AppMessage.SetObserver t o)
      | _, _ => none
    else if tag = "loadAircraft" then
      match decodeStr (j.get "config_file_name") with
      | some c => some (AppMessage.LoadAircraft c)
      | none => none
    else if tag = "disconnect" then some AppMessage.Disconnect
    else if tag = "startup" then some AppMessage.Startup
    else if tag = "runUpdater" then some AppMessage.RunUpdater
    else if tag = "forceTakeControl" then some AppMessage.ForceTakeControl
    else if tag = "updateConfig" then
      match Config.fromJson (j.get "new_config") with
      | some c => some (AppMessage.UpdateConfig c)
      | none => none
    else if tag = "goObserver" then some AppMessage.GoObserver
    else none
  | _ => none

/-- Possible outcomes of the `invoke_handler` closure registered in
`WebViewBackend::setup` (`ui/webview.rs`):
`tx.try_send(serde_json::from_str(arg).unwrap()).ok();`.
`delivered m` models a `try_send` of the decoded message (whose own error,
if any, is discarded by `.ok()`); `panicked` models the `unwrap()`
unwinding when deserialization fails. -/
inductive HandlerOutcome where
  | delivered (m : AppMessage)
  | panicked

/-- The `invoke_handler` closure of `WebViewBackend::setup`, applied to the
JSON document carried by the inbound string (string-level parse failure of
`serde_json::from_str` likewise makes the `unwrap()` panic). -/
def invoke_handler (arg : Json) : HandlerOutcome :=
  match AppMessage.fromJson arg with
  | some m => HandlerOutcome.delivered m
  | none => HandlerOutcome.panicked

/-- Serde-style escaping of one character inside a JSON string literal. -/
def escapeChar (c : Char) : String :=
  if c = '"' then "\\\""
  else if c = '\\' then "\\\\"
  else if c = '\x08' then "\\b"
  else if c = '\x0c' then "\\f"
  else if c = '\n' then "\\n"
  else if c = '\r' then "\\r"
  else if c = '\t' then "\\t"
  else if c.toNat < 32 then
    "\\u00" ++ String.mk [Nat.digitChar (c.toNat / 16), Nat.digitChar (c.toNat % 16)]
  else String.mk [c]

/-- A JSON string literal as `serde_json` renders it. -/
def renderStr (s : String) : String :=
  "\"" ++ String.join (s.toList.map escapeChar) ++ "\""

/-- The helper `get_message_str` of `ui/webview.rs`:
`format!("MessageReceived({})", json!({"type": type_string, "data": data}))`.
`serde_json`'s default `Value` object is a `BTreeMap`, so the two keys
render in alphabetical order: `data` before `type`. -/
def get_message_str (type_string : String) (data : String) : String :=
  "MessageReceived(\x7b\"data\":" ++ renderStr data
    ++ ",\"type\":" ++ renderStr type_string ++ "\x7d)"

/-- An opaque `web_view::Handle<i32>` (the runtime handle stored behind the
mutex in `WebViewBackend`). -/
structure Handle where
  user_data : Int

/-- The effect of `WebViewBackend::invoke` (`ui/webview.rs`), as the list
of scripts it schedules for evaluation on the webview: with the
mutex-guarded `app_handle` still unpopulated (`None`) it returns at once,
scheduling nothing and touching no state (the source only *reads* the
mutex); once populated it dispatches one evaluation of
`get_message_str(type_string, data.unwrap_or_default())`, dispatch/eval
errors being discarded (`.ok()`). -/
def WebViewBackend.invoke (app_handle : Option Handle) (type_string : String)
    (data : Option String) : List String :=
  match app_handle with
  | none => []
  | some _ => [get_message_str type_string (data.getD "")]

/-- A `crossbeam_channel` receiver endpoint viewed at one instant: the
queued messages in FIFO order, and whether every sender has been dropped. -/
structure Channel where
  queue : List AppMessage
  disconnected : Bool

/-- The error results of `crossbeam_channel::Receiver::try_recv`. -/
inductive TryRecvError where
  | Empty
  | Disconnected
  deriving DecidableEq

/-- Models `Receiver::try_recv`: non-blocking; a queued message is
delivered even after disconnection, `Disconnected` only once the queue is
empty and all senders are gone. -/
def Channel.try_recv (c : Channel) : Except TryRecvError (AppMessage × Channel) :=
  match c.queue with
  | m :: rest => Except.ok (m, { c with queue := rest })
  | [] =>
    if c.disconnected then Except.error TryRecvError.Disconnected
    else Except.error TryRecvError.Empty

/-- `EguiBackend::get_next_message` (`ui/egui_backend.rs`): a plain
`try_recv` on the inbound action channel. -/
def EguiBackend.get_next_message (c : Channel) : Except TryRecvError (AppMessage × Channel) :=
  c.try_recv

/-- A key in camelCase, following the spec's wire-protocol wording: a
lowercase first letter followed by alphanumeric characters (in particular
no underscore). -/
def isCamelCase (s : String) : Bool :=
  match s.toList with
  | [] => false
  | c :: rest => c.isLower && rest.all Char.isAlphanum

/-- The six numeric fields of `UiEvent::SendMetrics`
(`ui/egui_backend.rs`), gathered in a structure; `u64` counters become
`Nat`, the `f32` rates exact rationals (see the module comment). -/
structure MetricsSnapshot where
  sent_packets : Nat
  received_packets : Nat
  sent_kbps : Rat
  receive_kbps : Rat
  packet_loss : Rat
  ping : Rat
  deriving DecidableEq

/-- The `UiEvent` enum of `ui/egui_backend.rs` (events sent from the
application to the UI thread). `SendConfig` carries the raw JSON string
exactly as in the source; `SendMetrics` carries its six fields as a
`MetricsSnapshot`. -/
inductive UiEvent where
  | Error (msg : String)
  | Attempt
  | Connected
  | ServerFail (reason : String)
  | ClientFail (reason : String)
  | GainControl
  | LoseControl
  | ServerStarted
  | SessionCode (code : String)
  | SetHost
  | NewConnection (name : String)
  | LostConnection (name : String)
  | Observing (observing : Bool)
  | SetObserving (name : String) (observing : Bool)
  | SetInControl (name : String)
  | AddAircraft (name : String)
  | Version (version : String)
  | UpdateFailed
  | SendConfig (config_json : String)
  | SendMetrics (m : MetricsSnapshot)

/-- The `UiEvent::SendMetrics` construction inside the `"metrics"` branch
of `EguiBackend::invoke`: each field is read from the parsed JSON value
with `as_u64()` / `as_f64()` and `unwrap_or(0)` / `unwrap_or(0.0)` (the
`as f32` narrowing is exact on every value the claims evaluate). -/
def metricsFromValue (json : Json) : MetricsSnapshot :=
  { sent_packets := ((json.get "sentPackets").asU64).getD 0
    received_packets := ((json.get "receivePackets").asU64).getD 0
    sent_kbps := ((json.get "sentBandwidth").asF64).getD 0
    receive_kbps := ((json.get "receiveBandwidth").asF64).getD 0
    packet_loss := ((json.get "packetLoss").asF64).getD 0
    ping := ((json.get "ping").asF64).getD 0 }

/-- `EguiBackend::invoke` (`ui/egui_backend.rs`): the dispatcher from a
`(type_string, data)` pair to the at-most-one `UiEvent` sent on the event
channel (send errors are discarded by `.ok()`; `none` means nothing is
sent). `parse` stands for the external `serde_json::from_str::<Value>`
used by the `"metrics"` branch; an unknown tag falls through to `none`. -/
def EguiBackend.invokeEvent (parse : String → Option Json)
    (type_string : String) (data : Option String) : Option UiEvent :=
  if type_string = "error" then
    some (UiEvent.Error (data.getD "Unknown error"))
  else if type_string = "attempt" then some UiEvent.Attempt
  else if type_string = "connected" then some UiEvent.Connected
  else if type_string = "server_fail" then
    some (UiEvent.ServerFail (data.getD "Unknown reason"))
  else if type_string = "client_fail" then
    some (UiEvent.ClientFail (data.getD "Unknown reason"))
  else if type_string = "control" then some UiEvent.GainControl
  else if type_string = "lostcontrol" then some UiEvent.LoseControl
  else if type_string = "server" then some UiEvent.ServerStarted
  else if type_string = "session" then
    some (UiEvent.SessionCode (data.getD ""))
  else if type_string = "host" then some UiEvent.SetHost
  else if type_string = "newconnection" then
    some (UiEvent.NewConnection (data.getD ""))
  else if type_string = "lostconnection" then
    some (UiEvent.LostConnection (data.getD ""))
  else if type_string = "observing" then some (UiEvent.Observing true)
  else if type_string = "stop_observing" then some (UiEvent.Observing false)
  else if type_string = "set_observing" then
    some (UiEvent.SetObserving (data.getD "") true)
  else if type_string = "set_not_observing" then
    some (UiEvent.SetObserving (data.getD "") false)
  else if type_string = "set_incontrol" then
    some (UiEvent.SetInControl (data.getD ""))
  else if type_string = "add_aircraft" then
    some (UiEvent.AddAircraft (data.getD ""))
  else if type_string = "version" then
    some (UiEvent.Version (data.getD ""))
  else if type_string = "update_failed" then some UiEvent.UpdateFailed
  else if type_string = "config_msg" then
    some (UiEvent.SendConfig (data.getD "\x7b\x7d"))
  else if type_string = "metrics" then
    match data with
    | some d =>
      match parse d with
      | some json => some (UiEvent.SendMetrics (metricsFromValue json))
      | none => none
    | none => none
  else none

/-- The `ClientInfo` struct of `ui/egui_backend.rs`: one roster entry. -/
structure ClientInfo where
  name : String
  has_control : Bool
  is_observer : Bool
  deriving DecidableEq

/-- The UI-state fields of the `YourControlsApp` struct of
`ui/egui_backend.rs` (the spec's RenderState); the channel ends and the
local event queue are modelled separately. -/
structure RenderState where
  username : String
  session_code : String
  port : String
  ip_input : String
  is_connected : Bool
  status_message : String
  server_connection_method : ConnectionMethod
  client_connection_method : ConnectionMethod
  is_ipv6 : Bool
  clients : List ClientInfo
  selected_aircraft : Nat
  aircraft_list : List String
  connection_timeout : String
  instructor_mode : Bool
  streamer_mode : Bool
  sound_muted : Bool
  dark_theme : Bool
  download_bandwidth : Rat
  upload_bandwidth : Rat
  packet_loss : Rat
  ping : Rat

/-- `self.clients.iter_mut().find(|c| c.name == name)` followed by
`client.is_observer = observing`: the first entry with a matching name has
its observer flag set; all other entries are unchanged. -/
def setFirstObserver (clients : List ClientInfo) (name : String)
    (observing : Bool) : List ClientInfo :=
  match clients with
  | [] => []
  | c :: rest =>
    if c.name == name then { c with is_observer := observing } :: rest
    else c :: setFirstObserver rest name observing

/-- `self.clients.iter_mut().find(|c| c.name == name)` followed by
`client.has_control = true`: the first entry with a matching name gains
control; when no entry matches, nothing changes. -/
def setFirstControl (clients : List ClientInfo) (name : String) : List ClientInfo :=
  match clients with
  | [] => []
  | c :: rest =>
    if c.name == name then { c with has_control := true } :: rest
    else c :: setFirstControl rest name

/-- The `if let Some(name) = config["name"].as_str()` step of the
`SendConfig` branch of `handle_event`. -/
def cfgApplyName (config : Json) (s : RenderState) : RenderState :=
  match (config.get "name").asStr with
  | some name => { s with username := name }
  | none => s

/-- The `if let Some(port) = config["port"].as_u64()` step of the
`SendConfig` branch of `handle_event` (`port.to_string()`). -/
def cfgApplyPort (config : Json) (s : RenderState) : RenderState :=
  match (config.get "port").asU64 with
  | some port => { s with port := toString port }
  | none => s

/-- The `if let Some(timeout) = config["conn_timeout"].as_u64()` step of
the `SendConfig` branch of `handle_event`. -/
def cfgApplyTimeout (config : Json) (s : RenderState) : RenderState :=
  match (config.get "conn_timeout").asU64 with
  | some timeout => { s with connection_timeout := toString timeout }
  | none => s

/-- The `if let Some(dark) = config["ui_dark_theme"].as_bool()` step of
the `SendConfig` branch of `handle_event`. -/
def cfgApplyDark (config : Json) (s : RenderState) : RenderState :=
  match (config.get "ui_dark_theme").asBool with
  | some dark => { s with dark_theme := dark }
  | none => s

/-- The body of the `SendConfig` branch after a successful parse: the four
`if let` steps applied in source order. -/
def applyConfig (config : Json) (s : RenderState) : RenderState :=
  cfgApplyDark config (cfgApplyTimeout config (cfgApplyPort config (cfgApplyName config s)))

/-- `YourControlsApp::handle_event` (`ui/egui_backend.rs`) as a pure state
transformer. `parse` stands for the external
`serde_json::from_str::<Value>` applied to the `SendConfig` payload
(failure leaves the state untouched, as the source's `if let Ok(config)`
does). -/
def handle_event (parse : String → Option Json) (s : RenderState)
    (event : UiEvent) : RenderState :=
  match event with
  | UiEvent.Error msg =>
    { s with status_message := "Error: " ++ msg, is_connected := false }
  | UiEvent.Attempt =>
    { s with status_message := "Attempting connection..." }
  | UiEvent.Connected =>
    { s with status_message := "Connected to server", is_connected := true }
  | UiEvent.ServerFail reason =>
    { s with status_message := "Server failed: " ++ reason, is_connected := false }
  | UiEvent.ClientFail reason =>
    { s with
        status_message := "Client failed: " ++ reason
        is_connected := false
        clients := [] }
  | UiEvent.GainControl => { s with status_message := "You have control" }
  | UiEvent.LoseControl => { s with status_message := "You lost control" }
  | UiEvent.ServerStarted =>
    { s with status_message := "Server started", is_connected := true }
  | UiEvent.SessionCode code =>
    { s with status_message := "Session Code: " ++ code }
  | UiEvent.SetHost => { s with status_message := "You are now hosting" }
  | UiEvent.NewConnection name =>
    { s with clients := s.clients ++ [⟨name, false, false⟩] }
  | UiEvent.LostConnection name =>
    { s with clients := s.clients.filter (fun c => c.name != name) }
  | UiEvent.Observing _ => s
  | UiEvent.SetObserving name observing =>
    { s with clients := setFirstObserver s.clients name observing }
  | UiEvent.SetInControl name =>
    { s with clients :=
        setFirstControl (s.clients.map (fun c => { c with has_control := false })) name }
  | UiEvent.AddAircraft name =>
    let cleared :=
      if s.aircraft_list.length == 1
          && s.aircraft_list.headD "" == "Select an aircraft..." then
        ([] : List String)
      else s.aircraft_list
    { s with aircraft_list := cleared ++ [name] }
  | UiEvent.Version version =>
    { s with status_message := "Update available: " ++ version }
  | UiEvent.UpdateFailed =>
    { s with status_message := "Update download failed" }
  | UiEvent.SendConfig config_json =>
    match parse config_json with
    | some config => applyConfig config s
    | none => s
  | UiEvent.SendMetrics m =>
    { s with
        download_bandwidth := m.receive_kbps
        upload_bandwidth := m.sent_kbps
        packet_loss := m.packet_loss
        ping := m.ping }

/-- `YourControlsApp::new` (`ui/egui_backend.rs`): the list of messages it
sends on the inbound action channel (exactly one `Startup`, its send error
discarded by `.ok()`), paired with the initial render state built by the
struct literal. -/
def YourControlsApp.new : List AppMessage × RenderState :=
  ([AppMessage.Startup],
   { username := ""
     session_code := ""
     port := "7777"
     ip_input := ""
     is_connected := false
     status_message := "Not connected"
     server_connection_method := ConnectionMethod.CloudServer
     client_connection_method := ConnectionMethod.CloudServer
     is_ipv6 := false
     clients := []
     selected_aircraft := 0
     aircraft_list := ["Select an aircraft..."]
     connection_timeout := "30"
     instructor_mode := false
     streamer_mode := false
     sound_muted := false
     dark_theme := false
     download_bandwidth := 0
     upload_bandwidth := 0
     packet_loss := 0
     ping := 0 })

/-- The freshly initialized render state (spec's "initial render state"). -/
def initRenderState : RenderState :=
  YourControlsApp.new.2

/-- The `laminar::Metrics` snapshot consumed by
`UIBackend::send_network` (`ui/mod.rs`), with the fields the source
reads; counters as `Nat`, rates and round-trip time as exact rationals. -/
structure Metrics where
  sent_packets : Nat
  received_packets : Nat
  sent_kbps : Rat
  receive_kbps : Rat
  packet_loss : Rat
  rtt : Rat

/-- The default `send_network` method of the `UIBackend` trait
(`ui/mod.rs`): shapes the snapshot into the `json!` object and calls
`invoke("metrics", Some(&data.to_string()))`; modelled as the
`(type_string, data)` pair handed to `invoke`, with the payload kept as
its JSON document. -/
def send_network (metrics : Metrics) : String × Option Json :=
  ("metrics",
   some (Json.obj
     [("sentPackets", Json.num (metrics.sent_packets : Rat)),
      ("receivePackets", Json.num (metrics.received_packets : Rat)),
      ("sentBandwidth", Json.num metrics.sent_kbps),
      ("receiveBandwidth", Json.num metrics.receive_kbps),
      ("packetLoss", Json.num metrics.packet_loss),
      ("ping", Json.num (metrics.rtt / 2))]))

/-- C3: for every `ConnectionMethod` variant, encode-then-decode is the
identity, and the three encoded token strings are exactly `direct`,
`relay`, `cloudServer`. -/
theorem connection_method_roundtrip :
    (∀ m : ConnectionMethod, ConnectionMethod.decode m.encode = some m)
    ∧ ConnectionMethod.encode ConnectionMethod.Direct = "direct"
    ∧ ConnectionMethod.encode ConnectionMethod.Relay = "relay"
    ∧ ConnectionMethod.encode ConnectionMethod.CloudServer = "cloudServer" := by
  refine ⟨fun m => ?_, rfl, rfl, rfl⟩
  cases m <;> rfl

/-- C1 (counterexample): the inbound document with the unknown tag
`bogus` is not decodable as an `AppMessage`, yet the script-bridge handler
does not silently drop it — the `unwrap()` panics, crashing the UI
thread. -/
theorem undecodable_message_panics :
    AppMessage.fromJson (Json.obj [("type", Json.str "bogus")]) = none
    ∧ invoke_handler (Json.obj [("type", Json.str "bogus")])
        = HandlerOutcome.panicked := by
  exact ⟨rfl, rfl⟩

/-- C1 (amended): an inbound payload that is not decodable as an
`AppMessage` makes the webview invoke handler panic (the `unwrap()`
unwinds on the UI thread) instead of being silently dropped, while a
decodable payload is pushed onto the inbound channel (send errors
swallowed by `.ok()`). -/
theorem invoke_handler_behavior :
    (∀ j : Json, AppMessage.fromJson j = none →
      invoke_handler j = HandlerOutcome.panicked)
    ∧ (∀ (j : Json) (m : AppMessage), AppMessage.fromJson j = some m →
      invoke_handler j = HandlerOutcome.delivered m) := by
  constructor
  · intro j h
    unfold invoke_handler
    rw [h]
  · intro j m h
    unfold invoke_handler
    rw [h]

/-- C1 (witness): both halves of `invoke_handler_behavior` applied at
concrete documents — an object without a `type` tag panics, the
`disconnect`-tagged object is delivered. -/
theorem invoke_handler_behavior_witness :
    invoke_handler (Json.obj []) = HandlerOutcome.panicked
    ∧ invoke_handler (Json.obj [("type", Json.str "disconnect")])
        = HandlerOutcome.delivered AppMessage.Disconnect := by
  exact ⟨invoke_handler_behavior.1 (Json.obj []) rfl,
    invoke_handler_behavior.2 (Json.obj [("type", Json.str "disconnect")])
      AppMessage.Disconnect rfl⟩

/-- C2 (counterexample): serializing a concrete `StartServer` message
produces the payload keys `is_ipv6` and `use_upnp`, which are not
camelCase — serde's container-level `rename_all` renames variant names
only, not field names. -/
theorem start_server_keys_not_camel_case :
    (AppMessage.toJson
      (AppMessage.StartServer "host" false true 7777 ConnectionMethod.Direct)).keys
      = ["type", "username", "is_ipv6", "use_upnp", "port", "method"]
    ∧ isCamelCase "is_ipv6" = false
    ∧ isCamelCase "use_upnp" = false := by
  refine ⟨rfl, by decide, by decide⟩

/-- C2 (amended): serializing any `AppMessage` yields a JSON object whose
`type` field holds the camelCase variant name, and whose remaining keys
are exactly the Rust field identifiers as declared (snake_case where the
source declares them so, e.g. `is_ipv6`, `use_upnp`), in declaration
order. -/
theorem app_message_serialization_shape :
    ∀ m : AppMessage,
      m.toJson.get "type" = Json.str m.typeTag
      ∧ m.toJson.keys = "type" :: m.fieldNames := by
  intro m
  cases m <;> exact ⟨rfl, rfl⟩

/-- C9: with the mutex-guarded runtime handle still unpopulated (`None`),
`WebViewBackend::invoke` is a no-op for every tag and payload: it returns
at once and schedules no script evaluation (the source only reads the
mutex, so no state changes either). -/
theorem invoke_before_population_is_noop :
    ∀ (type_string : String) (data : Option String),
      WebViewBackend.invoke none type_string data = [] := by
  intro type_string data
  rfl

/-- C10: `YourControlsApp::new` pushes exactly one `Startup` message onto
the inbound channel, so the first `get_next_message()` after setup
returns `Startup`, and the next poll finds the channel empty. -/
theorem startup_message_first :
    YourControlsApp.new.1 = [AppMessage.Startup]
    ∧ EguiBackend.get_next_message ⟨YourControlsApp.new.1, false⟩
        = Except.ok (AppMessage.Startup, ⟨[], false⟩)
    ∧ EguiBackend.get_next_message ⟨[], false⟩
        = Except.error TryRecvError.Empty := by
  exact ⟨rfl, rfl, rfl⟩

/-- C6: `send_network` invokes the tag `metrics` with a JSON object whose
keys are exactly `sentPackets`, `receivePackets`, `sentBandwidth`,
`receiveBandwidth`, `packetLoss`, `ping`; `ping` carries the snapshot's
round-trip time halved, and the other five keys carry the corresponding
snapshot fields unchanged. -/
theorem send_network_shape :
    ∀ m : Metrics,
      (send_network m).1 = "metrics"
      ∧ ∃ d : Json,
          (send_network m).2 = some d
          ∧ d.keys = ["sentPackets", "receivePackets", "sentBandwidth",
              "receiveBandwidth", "packetLoss", "ping"]
          ∧ d.get "sentPackets" = Json.num (m.sent_packets : Rat)
          ∧ d.get "receivePackets" = Json.num (m.received_packets : Rat)
          ∧ d.get "sentBandwidth" = Json.num m.sent_kbps
          ∧ d.get "receiveBandwidth" = Json.num m.receive_kbps
          ∧ d.get "packetLoss" = Json.num m.packet_loss
          ∧ d.get "ping" = Json.num (m.rtt / 2) := by
  intro m
  exact ⟨rfl, _, rfl, rfl, rfl, rfl, rfl, rfl, rfl, rfl⟩

/-- C5: the native dispatcher's `metrics` branch, given data that parses
as JSON, builds the `SendMetrics` event whose fields each default to zero
when their key is missing or mistyped (the `as_u64/as_f64` read fails),
never aborting the message; in particular the payload with only
`sentBandwidth = 12.5` yields `sent_kbps = 12.5` and every other field
`0`. -/
theorem metrics_defaults_to_zero :
    (∀ (parse : String → Option Json) (d : String) (j : Json),
      parse d = some j →
      EguiBackend.invokeEvent parse "metrics" (some d)
        = some (UiEvent.SendMetrics (metricsFromValue j)))
    ∧ (∀ j : Json, (j.get "sentPackets").asU64 = none →
        (metricsFromValue j).sent_packets = 0)
    ∧ (∀ j : Json, (j.get "receivePackets").asU64 = none →
        (metricsFromValue j).received_packets = 0)
    ∧ (∀ j : Json, (j.get "sentBandwidth").asF64 = none →
        (metricsFromValue j).sent_kbps = 0)
    ∧ (∀ j : Json, (j.get "receiveBandwidth").asF64 = none →
        (metricsFromValue j).receive_kbps = 0)
    ∧ (∀ j : Json, (j.get "packetLoss").asF64 = none →
        (metricsFromValue j).packet_loss = 0)
    ∧ (∀ j : Json, (j.get "ping").asF64 = none →
        (metricsFromValue j).ping = 0)
    ∧ metricsFromValue (Json.obj [("sentBandwidth", Json.num ((25 : Rat) / 2))])
        = { sent_packets := 0, received_packets := 0,
            sent_kbps := (25 : Rat) / 2, receive_kbps := 0,
            packet_loss := 0, ping := 0 } := by
  refine ⟨fun parse d j h => ?_, fun j h => ?_, fun j h => ?_, fun j h => ?_,
    fun j h => ?_, fun j h => ?_, fun j h => ?_, rfl⟩
  · simp [EguiBackend.invokeEvent, h]
  all_goals simp [metricsFromValue, h]

/-- C5 (witness): `metrics_defaults_to_zero` applied at concrete inputs —
a parse function returning the `sentBandwidth`-only document, and the
null document for every defaulting field. -/
theorem metrics_defaults_to_zero_witness :
    EguiBackend.invokeEvent
        (fun _ => some (Json.obj [("sentBandwidth", Json.num ((25 : Rat) / 2))]))
        "metrics" (some "")
      = some (UiEvent.SendMetrics
          (metricsFromValue (Json.obj [("sentBandwidth", Json.num ((25 : Rat) / 2))])))
    ∧ (metricsFromValue Json.null).sent_packets = 0
    ∧ (metricsFromValue Json.null).received_packets = 0
    ∧ (metricsFromValue Json.null).sent_kbps = 0
    ∧ (metricsFromValue Json.null).receive_kbps = 0
    ∧ (metricsFromValue Json.null).packet_loss = 0
    ∧ (metricsFromValue Json.null).ping = 0 := by
  exact ⟨metrics_defaults_to_zero.1 _ "" _ rfl,
    metrics_defaults_to_zero.2.1 Json.null rfl,
    metrics_defaults_to_zero.2.2.1 Json.null rfl,
    metrics_defaults_to_zero.2.2.2.1 Json.null rfl,
    metrics_defaults_to_zero.2.2.2.2.1 Json.null rfl,
    metrics_defaults_to_zero.2.2.2.2.2.1 Json.null rfl,
    metrics_defaults_to_zero.2.2.2.2.2.2.1 Json.null rfl⟩

/-- The placeholder-clearing guard of the `AddAircraft` branch holds
exactly when the list is still the single placeholder entry. -/
theorem placeholder_cond_iff (l : List String) :
    (l.length == 1 && l.headD "" == "Select an aircraft...") = true
      ↔ l = ["Select an aircraft..."] := by
  cases l with
  | nil => simp
  | cons x rest =>
    cases rest with
    | nil => simp
    | cons y rest2 => simp

/-- C7: `aircraft-added("A320")` on the freshly initialized state yields
exactly `["A320"]`; the placeholder is cleared before the append, and the
clearing happens only when the list is still the single placeholder
entry — on any other list the event is a plain append. -/
theorem add_aircraft_placeholder :
    ((handle_event (fun _ => none) initRenderState
        (UiEvent.AddAircraft "A320")).aircraft_list = ["A320"])
    ∧ (∀ (parse : String → Option Json) (s : RenderState) (name : String),
        s.aircraft_list = ["Select an aircraft..."] →
        (handle_event parse s (UiEvent.AddAircraft name)).aircraft_list = [name])
    ∧ (∀ (parse : String → Option Json) (s : RenderState) (name : String),
        s.aircraft_list ≠ ["Select an aircraft..."] →
        (handle_event parse s (UiEvent.AddAircraft name)).aircraft_list
          = s.aircraft_list ++ [name]) := by
  refine ⟨rfl, fun parse s name h => ?_, fun parse s name h => ?_⟩
  · simp [handle_event, h]
  · have hcond : ¬ (s.aircraft_list.length == 1
        && s.aircraft_list.headD "" == "Select an aircraft...") = true := by
      intro hcc
      exact h ((placeholder_cond_iff s.aircraft_list).mp hcc)
    simp only [handle_event]
    rw [if_neg hcond]

/-- C7 (witness): `add_aircraft_placeholder` applied at concrete states —
the fresh placeholder list, and a state already holding `["A320"]`. -/
theorem add_aircraft_placeholder_witness :
    (handle_event (fun _ => none) initRenderState
        (UiEvent.AddAircraft "B747")).aircraft_list = ["B747"]
    ∧ (handle_event (fun _ => none)
        { initRenderState with aircraft_list := ["A320"] }
        (UiEvent.AddAircraft "B747")).aircraft_list = ["A320", "B747"] := by
  exact ⟨add_aircraft_placeholder.2.1 (fun _ => none) initRenderState "B747" rfl,
    add_aircraft_placeholder.2.2 (fun _ => none)
      { initRenderState with aircraft_list := ["A320"] } "B747" (by decide)⟩

/-- C8: `config-pushed` parses the payload and mutates exactly the four
recognized fields, each only when its key is present with the expected
type (`name` string, `port` and `conn_timeout` integers, `ui_dark_theme`
boolean); an absent or mistyped key leaves its field unchanged, an
unparsable payload leaves the whole state unchanged, and every other
render-state field is untouched. -/
theorem config_pushed_effect :
    ∀ (parse : String → Option Json) (s : RenderState) (c : String),
      (∀ j : Json, parse c = some j →
        handle_event parse s (UiEvent.SendConfig c) = applyConfig j s)
      ∧ (parse c = none → handle_event parse s (UiEvent.SendConfig c) = s)
      ∧ (∀ j : Json,
          ((applyConfig j s).username
            = match (j.get "name").asStr with
              | some v => v
              | none => s.username)
          ∧ ((applyConfig j s).port
            = match (j.get "port").asU64 with
              | some p => toString p
              | none => s.port)
          ∧ ((applyConfig j s).connection_timeout
            = match (j.get "conn_timeout").asU64 with
              | some t => toString t
              | none => s.connection_timeout)
          ∧ ((applyConfig j s).dark_theme
            = match (j.get "ui_dark_theme").asBool with
              | some b => b
              | none => s.dark_theme)
          ∧ (applyConfig j s).session_code = s.session_code
          ∧ (applyConfig j s).ip_input = s.ip_input
          ∧ (applyConfig j s).is_connected = s.is_connected
          ∧ (applyConfig j s).status_message = s.status_message
          ∧ (applyConfig j s).server_connection_method = s.server_connection_method
          ∧ (applyConfig j s).client_connection_method = s.client_connection_method
          ∧ (applyConfig j s).is_ipv6 = s.is_ipv6
          ∧ (applyConfig j s).clients = s.clients
          ∧ (applyConfig j s).selected_aircraft = s.selected_aircraft
          ∧ (applyConfig j s).aircraft_list = s.aircraft_list
          ∧ (applyConfig j s).instructor_mode = s.instructor_mode
          ∧ (applyConfig j s).streamer_mode = s.streamer_mode
          ∧ (applyConfig j s).sound_muted = s.sound_muted
          ∧ (applyConfig j s).download_bandwidth = s.download_bandwidth
          ∧ (applyConfig j s).upload_bandwidth = s.upload_bandwidth
          ∧ (applyConfig j s).packet_loss = s.packet_loss
          ∧ (applyConfig j s).ping = s.ping) := by
  refine fun parse s c => ⟨fun j h => by simp [handle_event, h],
    fun h => by simp [handle_event, h], fun j => ?_⟩
  cases h1 : (j.get "name").asStr <;>
    cases h2 : (j.get "port").asU64 <;>
      cases h3 : (j.get "conn_timeout").asU64 <;>
        cases h4 : (j.get "ui_dark_theme").asBool <;>
          simp [applyConfig, cfgApplyName, cfgApplyPort, cfgApplyTimeout,
            cfgApplyDark, h1, h2, h3, h4]

/-- C8 (witness): `config_pushed_effect` applied at a concrete state and
payload — the parsed document sets `name` and `port`, leaves the
mistyped `conn_timeout` (a string) and the absent `ui_dark_theme`
untouched, and a failing parse leaves the state unchanged. -/
theorem config_pushed_effect_witness :
    handle_event (fun _ => some (Json.obj
        [("name", Json.str "pilot"), ("port", Json.num (8000 : Rat)),
         ("conn_timeout", Json.str "soon")]))
      initRenderState (UiEvent.SendConfig "cfg")
      = applyConfig (Json.obj
          [("name", Json.str "pilot"), ("port", Json.num (8000 : Rat)),
           ("conn_timeout", Json.str "soon")]) initRenderState
    ∧ handle_event (fun _ => none) initRenderState (UiEvent.SendConfig "cfg")
        = initRenderState
    ∧ (applyConfig (Json.obj
          [("name", Json.str "pilot"), ("port", Json.num (8000 : Rat)),
           ("conn_timeout", Json.str "soon")]) initRenderState).username
        = "pilot"
    ∧ (applyConfig (Json.obj
          [("name", Json.str "pilot"), ("port", Json.num (8000 : Rat)),
           ("conn_timeout", Json.str "soon")]) initRenderState).port
        = "8000"
    ∧ (applyConfig (Json.obj
          [("name", Json.str "pilot"), ("port", Json.num (8000 : Rat)),
           ("conn_timeout", Json.str "soon")]) initRenderState).connection_timeout
        = "30"
    ∧ (applyConfig (Json.obj
          [("name", Json.str "pilot"), ("port", Json.num (8000 : Rat)),
           ("conn_timeout", Json.str "soon")]) initRenderState).dark_theme
        = false := by
  refine ⟨(config_pushed_effect _ initRenderState "cfg").1 _ rfl,
    (config_pushed_effect (fun _ => none) initRenderState "cfg").2.1 rfl,
    ?_, ?_, ?_, ?_⟩
  · exact ((config_pushed_effect (fun _ => none) initRenderState "cfg").2.2 _).1.trans (by decide)
  · exact ((config_pushed_effect (fun _ => none) initRenderState "cfg").2.2 _).2.1.trans (by decide)
  · exact ((config_pushed_effect (fun _ => none) initRenderState "cfg").2.2 _).2.2.1.trans (by decide)
  · exact ((config_pushed_effect (fun _ => none) initRenderState "cfg").2.2 _).2.2.2.1.trans (by decide)

/-- Setting an observer flag never changes any entry's control flag, so
the number of controlling entries is preserved. -/
theorem countP_setFirstObserver (l : List ClientInfo) (name : String)
    (observing : Bool) :
    (setFirstObserver l name observing).countP (fun c => c.has_control)
      = l.countP (fun c => c.has_control) := by
  induction l with
  | nil => rfl
  | cons c rest ih =>
    cases hc : c.name == name <;>
      simp [setFirstObserver, hc, List.countP_cons, ih]

/-- Granting control to the first matching entry raises the number of
controlling entries by at most one. -/
theorem countP_setFirstControl_le (l : List ClientInfo) (name : String) :
    (setFirstControl l name).countP (fun c => c.has_control)
      ≤ l.countP (fun c => c.has_control) + 1 := by
  induction l with
  | nil => simp [setFirstControl]
  | cons c rest ih =>
    cases hc : c.name == name
    · simp only [setFirstControl, hc, Bool.false_eq_true, if_false,
        List.countP_cons]
      omega
    · simp only [setFirstControl, hc, if_true, List.countP_cons]
      split <;> omega

/-- After the clearing pass of `SetInControl`, no entry has control. -/
theorem countP_clearAll (l : List ClientInfo) :
    (l.map fun c => { c with has_control := false }).countP
      (fun c => c.has_control) = 0 := by
  induction l with
  | nil => rfl
  | cons c rest ih => simp [List.countP_cons, ih]

/-- Removing entries (`Vec::retain`) never increases the number of
controlling entries. -/
theorem countP_filter_le_yc (p q : ClientInfo → Bool) (l : List ClientInfo) :
    (l.filter q).countP p ≤ l.countP p := by
  induction l with
  | nil => simp
  | cons c rest ih =>
    cases hq : q c
    · simp only [List.filter_cons, hq, Bool.false_eq_true, if_false,
        List.countP_cons]
      exact le_trans ih (Nat.le_add_right _ _)
    · simp only [List.filter_cons, hq, if_true, List.countP_cons]
      exact Nat.add_le_add_right ih _

/-- Applying a pushed configuration never touches the roster. -/
theorem applyConfig_clients (config : Json) (s : RenderState) :
    (applyConfig config s).clients = s.clients := by
  cases h1 : (config.get "name").asStr <;>
    cases h2 : (config.get "port").asU64 <;>
      cases h3 : (config.get "conn_timeout").asU64 <;>
        cases h4 : (config.get "ui_dark_theme").asBool <;>
          simp [applyConfig, cfgApplyName, cfgApplyPort, cfgApplyTimeout,
            cfgApplyDark, h1, h2, h3, h4]

/-- One step of the reducer preserves the roster invariant: if at most one
entry has control before `handle_event`, at most one has control after. -/
theorem handle_event_control_le (parse : String → Option Json)
    (s : RenderState) (e : UiEvent)
    (h : s.clients.countP (fun c => c.has_control) ≤ 1) :
    ((handle_event parse s e).clients).countP (fun c => c.has_control) ≤ 1 := by
  cases e with
  | Error msg => exact h
  | Attempt => exact h
  | Connected => exact h
  | ServerFail reason => exact h
  | ClientFail reason => simp [handle_event]
  | GainControl => exact h
  | LoseControl => exact h
  | ServerStarted => exact h
  | SessionCode code => exact h
  | SetHost => exact h
  | NewConnection name =>
    simp only [handle_event, List.countP_append]
    simpa [List.countP_cons] using h
  | LostConnection name =>
    simp only [handle_event]
    exact le_trans (countP_filter_le_yc _ _ s.clients) h
  | Observing observing => exact h
  | SetObserving name observing =>
    simp only [handle_event]
    rw [countP_setFirstObserver]
    exact h
  | SetInControl name =>
    simp only [handle_event]
    have hle := countP_setFirstControl_le
      (s.clients.map fun c => { c with has_control := false }) name
    rw [countP_clearAll] at hle
    simpa using hle
  | AddAircraft name => exact h
  | Version version => exact h
  | UpdateFailed => exact h
  | SendConfig config_json =>
    simp only [handle_event]
    cases hp : parse config_json with
    | none => exact h
    | some config =>
      rw [applyConfig_clients]
      exact h
  | SendMetrics m => exact h

/-- The roster invariant is preserved along any event sequence. -/
theorem foldl_control_le (parse : String → Option Json)
    (events : List UiEvent) :
    ∀ s : RenderState, s.clients.countP (fun c => c.has_control) ≤ 1 →
      ((events.foldl (handle_event parse) s).clients).countP
        (fun c => c.has_control) ≤ 1 := by
  induction events with
  | nil => exact fun s h => h
  | cons e rest ih =>
    exact fun s h => ih _ (handle_event_control_le parse s e h)

/-- C4: from the initial render state, any sequence of outbound-event
applications leaves at most one roster entry with `has_control = true`;
`controller-changed("Bob")` then `controller-changed("Alice")` on a roster
holding both leaves exactly Alice in control and Bob not, and
`controller-changed` with an absent name leaves control unassigned. -/
theorem roster_control_invariant :
    (∀ (parse : String → Option Json) (events : List UiEvent),
      ((events.foldl (handle_event parse) initRenderState).clients).countP
        (fun c => c.has_control) ≤ 1)
    ∧ (([UiEvent.NewConnection "Bob", UiEvent.NewConnection "Alice",
          UiEvent.SetInControl "Bob", UiEvent.SetInControl "Alice"].foldl
          (handle_event fun _ => none) initRenderState).clients
        = [⟨"Bob", false, false⟩, ⟨"Alice", true, false⟩])
    ∧ ((handle_event (fun _ => none)
          ([UiEvent.NewConnection "Bob", UiEvent.NewConnection "Alice",
            UiEvent.SetInControl "Bob", UiEvent.SetInControl "Alice"].foldl
            (handle_event fun _ => none) initRenderState)
          (UiEvent.SetInControl "Carol")).clients
        = [⟨"Bob", false, false⟩, ⟨"Alice", false, false⟩]) := by
  refine ⟨fun parse events =>
    foldl_control_le parse events initRenderState (by decide), by decide, by decide⟩

end YC
